import Mathlib

/-!
Shallow embedding of the chat client's WebSocket session manager
(src/services/websocket.ts, class ChatWebSocketService) together with the
query-cache merge it performs on inbound assistant messages.

The service is a JS singleton driven by the browser event loop.  We model it
as an explicit state record (SvcState) and a deterministic step function over
labels: the public method calls (connect, disconnect, joinChat, sendMessage,
sendSimpleMessage, sendTyping) and the asynchronous environment events that
the browser delivers (socket open / error / close, inbound message, timer
fire, network online/offline).  Every socket ever constructed is kept in
creation order in a list of ready-states, because replaced sockets keep their
attached handlers and can still fire events.
-/

namespace WS

/-- JS String.prototype.includes restricted to a pattern check at each
position: does the pattern occur as a contiguous substring? -/
def strIncludesAux (pat : List Char) : List Char → Bool
  | [] => pat.isEmpty
  | c :: rest => List.isPrefixOf pat (c :: rest) || strIncludesAux pat rest

/-- messageText.includes(pat) from the welcome-detection code. -/
def strIncludes (s pat : String) : Bool :=
  strIncludesAux pat.data s.data

/-- JS truthiness of a nullable string: null/undefined and the empty string
are falsy, every other string is truthy. -/
def truthyOpt : Option String → Bool
  | none => false
  | some t => !t.isEmpty

/-- Browser WebSocket.readyState values. -/
inductive ReadyState where
  | connecting
  | opened
  | closing
  | closed
deriving DecidableEq

/-- Sender object inside a ChatMessage (websocket.ts interface ChatMessage). -/
structure Sender where
  id : String
  name : String
  email : String
deriving DecidableEq

/-- ChatMessage.type field. -/
inductive MsgType where
  | user
  | assistant
deriving DecidableEq

/-- The role string stored in the cache for a message type. -/
def MsgType.role : MsgType → String
  | .user => "user"
  | .assistant => "assistant"

/-- interface ChatMessage from websocket.ts. -/
structure ChatMessage where
  id : String
  chatId : String
  content : String
  sender : Sender
  timestamp : String
  type : MsgType
deriving DecidableEq

/-- interface TypingStatus from websocket.ts. -/
structure TypingStatus where
  userId : String
  userName : String
  chatId : String
  isTyping : Bool
deriving DecidableEq

/-- The payload field of a WebSocketMessage (typed any in the source); the
constructors cover the shapes the code actually produces or reads. -/
inductive WSPayload where
  | chatMsg (m : ChatMessage)
  | typingStatus (t : TypingStatus)
  | typingFlag (isTyping : Bool)
  | raw (s : String)
deriving DecidableEq

/-- interface WebSocketMessage from websocket.ts (the legacy complex
format).  The type field is kept as a string. -/
structure WSMessage where
  mtype : String
  payload : Option WSPayload
  chatId : Option String
  userId : Option String
deriving DecidableEq

/-- A frame written to a socket with ws.send(JSON.stringify(...)). -/
inductive WSFrame where
  | auth (jwtToken : Option String) (chatId : String)
  | simple (message : String) (chatId : String)
  | legacy (m : WSMessage)
deriving DecidableEq

/-- Pending setTimeout callbacks created by the service: the 10-second
connection timeout from connect() (tagged with the socket it was created
for, since the open/error listeners of that socket clear it) and the
reconnection timer from scheduleReconnect (tagged with its delay). -/
inductive WSTimer where
  | connTimeout (sock : Nat)
  | reconnect (delay : Nat)
deriving DecidableEq

/-- A message cached for a chat (the shape handleIncomingMessage writes:
id/content/role/timestamp/chatId).  JS Date values are represented by the
string they were constructed from; equal strings give equal dates. -/
structure CacheMsg where
  id : String
  content : String
  role : String
  timestamp : String
  chatId : String
deriving DecidableEq

/-- The per-chat record stored under the query key for one chat id. -/
structure ChatRec where
  id : String
  title : String
  lastMessage : String
  lastMessageTime : String
  messages : List CacheMsg
  createdAt : String
deriving DecidableEq

/-- An entry of the chat-list cache (only the fields the service reads or
writes; the object spread keeps others, which no claim inspects). -/
structure ChatSummary where
  id : String
  lastMessage : String
  lastMessageTime : String
deriving DecidableEq

/-- The query cache keyed by chat id, as a keyed map (react-query stores
query data in a map keyed by the query key). -/
abbrev ChatCache := String → Option ChatRec

/-- Parsed inbound JSON payload: the fields the onmessage handler reads. -/
structure Inbound where
  reply : Option (List String)
  errorFlag : Bool
  chatId : Option String
  mtype : String
  payload : Option WSPayload
deriving DecidableEq

/-- data?.reply?.[0] || '' -/
def messageText (d : Inbound) : String :=
  (d.reply.getD []).headD ""

/-- The welcome-message heuristic of the onmessage handler: non-empty first
reply element containing one of the literal markers. -/
def isWelcome (d : Inbound) : Bool :=
  !(messageText d).isEmpty &&
    (strIncludes (messageText d) "Connected to chat" ||
     strIncludes (messageText d) "connected" ||
     strIncludes (messageText d) "welcome" ||
     strIncludes (messageText d) "ready")

/-- The entire mutable state of the ChatWebSocketService singleton, plus the
observable outputs (frames sent, events emitted) and the environment
artifacts it owns (pending close events, pending timers).  sockets holds the
ready-state of every WebSocket ever constructed, in creation order; ws is
the index of the socket currently referenced by this.ws. -/
@[ext]
structure SvcState where
  sockets : List ReadyState
  ws : Option Nat
  isConnecting : Bool
  reconnectAttempts : Nat
  isServerReady : Bool
  token : Option String
  currentChatId : Option String
  messageQueue : List WSMessage
  queryClient : Bool
  chatCache : ChatCache
  chatsList : Option (List ChatSummary)
  urlChatId : Option String
  sent : List (Nat × WSFrame)
  emitted : List String
  pendingClose : List (Nat × Nat)
  timers : List WSTimer

/-- private maxReconnectAttempts = 5. -/
def maxReconnectAttempts : Nat := 5

/-- private reconnectDelay = 1000. -/
def reconnectDelay : Nat := 1000

/-- The state right after construction and initialize(queryClient, token):
no socket, empty queue and caches. -/
def initState (token : Option String) (queryClient : Bool) : SvcState :=
  { sockets := []
    ws := none
    isConnecting := false
    reconnectAttempts := 0
    isServerReady := false
    token := token
    currentChatId := none
    messageQueue := []
    queryClient := queryClient
    chatCache := fun _ => none
    chatsList := none
    urlChatId := none
    sent := []
    emitted := []
    pendingClose := []
    timers := [] }

/-- this.emit(event, data): we record the event name. -/
def emit (s : SvcState) (e : String) : SvcState :=
  { s with emitted := s.emitted ++ [e] }

/-- Ready-state of socket i (closed for an index that never existed). -/
def sockState (s : SvcState) (i : Nat) : ReadyState :=
  (s.sockets[i]?).getD .closed

/-- Overwrite the ready-state of socket i. -/
def setSock (s : SvcState) (i : Nat) (rs : ReadyState) : SvcState :=
  { s with sockets := s.sockets.set i rs }

/-- this.ws && this.ws.readyState === WebSocket.OPEN. -/
def currentOpen (s : SvcState) : Bool :=
  match s.ws with
  | some i => decide (sockState s i = .opened)
  | none => false

/-- ws.send on a given socket: transmitted only while that socket is open
(a closing/closed socket silently drops the data; the service never sends
on a connecting socket in the modelled paths). -/
def sendRaw (s : SvcState) (i : Nat) (f : WSFrame) : SvcState :=
  if sockState s i = .opened then { s with sent := s.sent ++ [(i, f)] } else s

/-- this.ws.send(...) — send on the current socket, no-op when this.ws is
null. -/
def sendCurrent (s : SvcState) (f : WSFrame) : SvcState :=
  match s.ws with
  | some i => sendRaw s i f
  | none => s

/-- async connect(): returns early while already connecting or while the
current socket is open, and when no auth token is available; otherwise
constructs a new WebSocket on the derived URL, installs listeners and arms
the 10-second connection timeout. -/
def connect (s : SvcState) : SvcState :=
  if s.isConnecting || currentOpen s then s
  else
    match s.token with
    | none => s
    | some _ =>
      let i := s.sockets.length
      { s with isConnecting := true
               sockets := s.sockets ++ [.connecting]
               ws := some i
               timers := s.timers ++ [.connTimeout i] }

/-- disconnect(): zero the attempt counter, drop the connecting/ready flags,
close the current socket with code 1000 (Normal closure) when it is still
connecting or open (the close event is delivered later), null the socket
reference and the current chat id.  Note the pending reconnect timers are
NOT cancelled (the source never stores the setTimeout handles). -/
def disconnect (s : SvcState) : SvcState :=
  match s.ws with
  | some i =>
    if sockState s i = .connecting ∨ sockState s i = .opened then
      { s with reconnectAttempts := 0, isConnecting := false, isServerReady := false
               sockets := s.sockets.set i .closing
               pendingClose := s.pendingClose ++ [(i, 1000)]
               ws := none, currentChatId := none }
    else
      { s with reconnectAttempts := 0, isConnecting := false, isServerReady := false
               ws := none, currentChatId := none }
  | none =>
    { s with reconnectAttempts := 0, isConnecting := false, isServerReady := false
             currentChatId := none }

/-- private scheduleReconnect(): at the attempt cap only emit
max_reconnect_attempts_reached; otherwise compute the exponential delay from
the current counter, increment the counter, emit reconnect_attempt and arm
the reconnection timer. -/
def scheduleReconnect (s : SvcState) : SvcState :=
  if s.reconnectAttempts ≥ maxReconnectAttempts then
    emit s "max_reconnect_attempts_reached"
  else
    let delay := reconnectDelay * 2 ^ s.reconnectAttempts
    { s with reconnectAttempts := s.reconnectAttempts + 1
             emitted := s.emitted ++ ["reconnect_attempt"]
             timers := s.timers ++ [.reconnect delay] }

/-- sendMessage(message): transmit at once while the current socket is open,
otherwise append to the pending queue. -/
def sendMessage (s : SvcState) (m : WSMessage) : SvcState :=
  if currentOpen s then sendCurrent s (.legacy m)
  else { s with messageQueue := s.messageQueue ++ [m] }

/-- sendSimpleMessage(message): silently dropped (only logged) unless the
server welcome was received; then transmitted only while the current socket
is open, with the current chat id or "default". -/
def sendSimpleMessage (s : SvcState) (message : String) : SvcState :=
  if !s.isServerReady then s
  else if currentOpen s then
    sendCurrent s (.simple message (s.currentChatId.getD "default"))
  else s

/-- sendTyping(chatId, isTyping): a legacy-format message through
sendMessage. -/
def sendTyping (s : SvcState) (chatId : String) (isTyping : Bool) : SvcState :=
  sendMessage s { mtype := "typing", payload := some (.typingFlag isTyping),
                  chatId := some chatId, userId := none }

/-- joinChat(chatId): record the chat id; if open and server-ready re-send
the auth frame with the new chat id, otherwise fall through to connect(). -/
def joinChat (s : SvcState) (chatId : String) : SvcState :=
  let s1 := { s with currentChatId := some chatId }
  if currentOpen s1 && s1.isServerReady then
    sendCurrent s1 (.auth s1.token chatId)
  else connect s1

/-- leaveChat(): clear the chat id and the server-ready flag when a chat was
joined. -/
def leaveChat (s : SvcState) : SvcState :=
  match s.currentChatId with
  | some _ => { s with currentChatId := none, isServerReady := false }
  | none => s

/-- private flushMessageQueue(): when the queue is non-empty, iterate it in
order sending each entry while the current socket is open, then empty the
queue. -/
def flushMessageQueue (s : SvcState) : SvcState :=
  if s.messageQueue.isEmpty then s
  else
    let s2 := s.messageQueue.foldl (fun acc m => sendCurrent acc (.legacy m)) s
    { s2 with messageQueue := [] }

/-- The cache entry handleIncomingMessage appends: the inbound ChatMessage
converted to the internal message shape. -/
def toCacheMsg (m : ChatMessage) : CacheMsg :=
  { id := m.id, content := m.content, role := m.type.role,
    timestamp := m.timestamp, chatId := m.chatId }

/-- The minimal chat record synthesized when no cache entry exists for the
chat id (the oldData-undefined branch of the per-chat updater).  nowIso is
the value of new Date() at merge time (createdAt). -/
def synthChat (nowIso : String) (m : ChatMessage) : ChatRec :=
  { id := m.chatId
    title := if m.content.length > 50 then m.content.take 50 ++ "..." else m.content
    lastMessage := m.content
    lastMessageTime := m.timestamp
    messages := [toCacheMsg m]
    createdAt := nowIso }

/-- The updater passed to setQueryData for the per-chat key: synthesize when
absent, return oldData unchanged when a message with the same id is already
present, otherwise append and refresh the last-message fields. -/
def chatUpdater (nowIso : String) (m : ChatMessage) : Option ChatRec → ChatRec
  | none => synthChat nowIso m
  | some old =>
    if old.messages.any (fun msg => msg.id == m.id) then old
    else
      { old with messages := old.messages ++ [toCacheMsg m]
                 lastMessage := m.content
                 lastMessageTime := m.timestamp }

/-- setQueryData on the per-chat key: store the updater's result under the
chat id. -/
def setCache (c : ChatCache) (k : String) (v : ChatRec) : ChatCache :=
  fun k2 => if k2 = k then some v else c k2

/-- setQueryData on the chats key: when a chat list is cached, refresh the
last-message fields of the matching chat. -/
def updateChats (m : ChatMessage) : Option (List ChatSummary) → Option (List ChatSummary)
  | none => none
  | some l =>
    some (l.map fun c =>
      if c.id == m.chatId then
        { c with lastMessage := m.content, lastMessageTime := m.timestamp }
      else c)

/-- private handleIncomingMessage(message): the two cache writes it performs
(per-chat merge and chat-list refresh), as a pure function of the caches. -/
def handleIncomingMessage (nowIso : String) (cc : ChatCache)
    (cl : Option (List ChatSummary)) (m : ChatMessage) :
    ChatCache × Option (List ChatSummary) :=
  (setCache cc m.chatId (chatUpdater nowIso m (cc m.chatId)), updateChats m cl)

/-- handleIncomingMessage applied to the service state (no-op without a
queryClient, per the early return). -/
def applyIncoming (s : SvcState) (nowIso : String) (m : ChatMessage) : SvcState :=
  if s.queryClient then
    let r := handleIncomingMessage nowIso s.chatCache s.chatsList m
    { s with chatCache := r.1, chatsList := r.2 }
  else s

/-- private handleWebSocketMessage(message): the legacy complex-format
dispatch, followed by the raw re-emit of the message type. -/
def handleWebSocketMessage (s : SvcState) (nowIso : String) (m : WSMessage) : SvcState :=
  let s1 :=
    match m.mtype with
    | "message" =>
      match m.payload with
      | some (.chatMsg cm) => applyIncoming s nowIso cm
      | _ => s
    | "typing" => emit s "typing_update"
    | "user_joined" => emit s "presence_update"
    | "user_left" => emit s "presence_update"
    | "error" => emit s "error"
    | _ => s
  emit s1 m.mtype

/-- The body of ws.onmessage after JSON.parse succeeded.  nowMs models
Date.now().toString() and nowIso models new Date().toISOString() at delivery
time.  Welcome payloads set the server-ready flag, may override the current
chat id, emit connected and flush the queue; error replies emit error;
plain replies are turned into an assistant ChatMessage and merged into the
cache; anything else falls back to the legacy dispatcher. -/
def onMessageData (s : SvcState) (d : Inbound) (nowMs nowIso : String) : SvcState :=
  if isWelcome d then
    let s1 := { s with isServerReady := true }
    let s2 := if truthyOpt d.chatId then { s1 with currentChatId := d.chatId } else s1
    flushMessageQueue (emit s2 "connected")
  else if d.reply.isSome || d.errorFlag then
    if d.errorFlag && !(d.reply.getD []).isEmpty then
      emit s "error"
    else if !(d.reply.getD []).isEmpty then
      let content := (d.reply.getD []).headD ""
      let a1 : Option String :=
        if truthyOpt d.chatId then d.chatId else s.currentChatId
      let a2 : Option String :=
        if truthyOpt a1 then a1
        else if truthyOpt s.urlChatId then s.urlChatId
        else a1
      let activeChatId : String := if truthyOpt a2 then a2.getD "" else "default"
      let cm : ChatMessage :=
        { id := nowMs, chatId := activeChatId, content := content,
          sender := { id := "assistant", name := "AI Assistant",
                      email := "assistant@ai.com" },
          timestamp := nowIso, type := .assistant }
      applyIncoming s nowIso cm
    else s
  else
    handleWebSocketMessage s nowIso
      { mtype := d.mtype, payload := d.payload, chatId := d.chatId, userId := none }

/-- clearTimeout of the connection timeout armed for socket i (performed by
the open and error listeners added in connect()). -/
def removeConnTimeout (s : SvcState) (i : Nat) : SvcState :=
  { s with timers := s.timers.filter fun t => decide (t ≠ .connTimeout i) }

/-- ws.onopen for socket i (fires when that socket finishes its handshake):
the socket becomes open, its connection timeout is cleared, the handler
drops the connecting flag, zeroes the attempt counter, resets the
server-ready flag and sends the auth frame on this.ws when a token is
present. -/
def onOpen (s : SvcState) (i : Nat) : SvcState :=
  if sockState s i = .connecting then
    let s1 := removeConnTimeout (setSock s i .opened) i
    let s2 := { s1 with isConnecting := false, reconnectAttempts := 0,
                        isServerReady := false }
    match s2.token with
    | some t => sendCurrent s2 (.auth (some t) (s2.currentChatId.getD "default"))
    | none => s2
  else s

/-- ws.onerror for socket i: the handler drops the connecting and
server-ready flags and emits error; the browser moves the socket to closed
and will deliver an abnormal (1006) close event afterwards.  The error
listener also clears the connection timeout. -/
def onError (s : SvcState) (i : Nat) : SvcState :=
  if sockState s i = .connecting ∨ sockState s i = .opened then
    let s1 := removeConnTimeout (setSock s i .closed) i
    let s2 := { s1 with isConnecting := false, isServerReady := false }
    emit { s2 with pendingClose := s2.pendingClose ++ [(i, 1006)] } "error"
  else s

/-- ws.onclose for socket i with the given close code (delivery of a close
event previously queued for that socket): drop the connecting and
server-ready flags, schedule a reconnection unless the closure was normal
(code 1000), emit disconnected. -/
def onClose (s : SvcState) (i : Nat) (code : Nat) : SvcState :=
  if (i, code) ∈ s.pendingClose then
    let s1 := { setSock s i .closed with
                pendingClose := s.pendingClose.erase (i, code)
                isConnecting := false
                isServerReady := false }
    let s2 := if code ≠ 1000 then scheduleReconnect s1 else s1
    emit s2 "disconnected"
  else s

/-- Firing of the k-th pending timer.  The connection timeout closes the
current socket and schedules a reconnection when this.ws is still
connecting; the reconnection timer calls connect() when this.ws is null or
closed.  Neither timer is ever cancelled by disconnect(). -/
def fireTimer (s : SvcState) (k : Nat) : SvcState :=
  match s.timers[k]? with
  | some (.connTimeout _) =>
    let s1 := { s with timers := s.timers.eraseIdx k }
    match s1.ws with
    | some j =>
      if sockState s1 j = .connecting then
        let s2 := { setSock s1 j .closing with
                    pendingClose := s1.pendingClose ++ [(j, 1005)] }
        scheduleReconnect { s2 with isConnecting := false }
      else s1
    | none => s1
  | some (.reconnect _) =>
    let s1 := { s with timers := s.timers.eraseIdx k }
    match s1.ws with
    | some j => if sockState s1 j = .closed then connect s1 else s1
    | none => connect s1
  | none => s

/-- The labels driving the service: its public method calls and the
asynchronous events the browser event loop delivers to it. -/
inductive Step where
  | callConnect
  | callDisconnect
  | callJoinChat (chatId : String)
  | callLeaveChat
  | callSendSimple (message : String)
  | callSend (m : WSMessage)
  | callSendTyping (chatId : String) (isTyping : Bool)
  | evOpen (i : Nat)
  | evError (i : Nat)
  | evClose (i : Nat) (code : Nat)
  | evMessage (i : Nat) (d : Inbound) (nowMs nowIso : String)
  | fireTimer (k : Nat)
  | evOnline
  | evOffline

/-- One step of the service.  An inbound message can only be delivered on a
socket that is open; the window online listener calls connect(), the
offline listener emits network_offline. -/
def step (s : SvcState) : Step → SvcState
  | .callConnect => connect s
  | .callDisconnect => disconnect s
  | .callJoinChat c => joinChat s c
  | .callLeaveChat => leaveChat s
  | .callSendSimple msg => sendSimpleMessage s msg
  | .callSend m => sendMessage s m
  | .callSendTyping c b => sendTyping s c b
  | .evOpen i => onOpen s i
  | .evError i => onError s i
  | .evClose i code => onClose s i code
  | .evMessage i d nowMs nowIso =>
    if sockState s i = .opened then onMessageData s d nowMs nowIso else s
  | .fireTimer k => fireTimer s k
  | .evOnline => connect s
  | .evOffline => emit s "network_offline"

/-- Run a list of steps from a state. -/
def run (s : SvcState) (tr : List Step) : SvcState :=
  tr.foldl step s

/-- The scheme-and-path rewrite applied to Config.apiUrl in connect():
the anchored regex replacing a leading http:// or https:// with ws://. -/
def stripHttpScheme : List Char → Option (List Char)
  | 'h' :: 't' :: 't' :: 'p' :: rest =>
    match rest with
    | ':' :: '/' :: '/' :: tail => some tail
    | 's' :: ':' :: '/' :: '/' :: tail => some tail
    | _ => none
  | _ => none

/-- apiUrl.replace-of-the-scheme-regex with ws://, then + "/ws/chat". -/
def wsUrl (apiUrl : String) : String :=
  (match stripHttpScheme apiUrl.data with
   | some tail => "ws://" ++ String.mk tail
   | none => apiUrl) ++ "/ws/chat"

/-! ### Concrete states and traces used by witnesses and counterexamples -/

/-- A freshly initialized service with a token and a query client. -/
def exInit : SvcState := initState (some "tok") true

/-- After connect() and the open event of socket 0: socket open, auth frame
sent, no welcome received yet. -/
def sOpenEx : SvcState := run exInit [.callConnect, .evOpen 0]

/-- A concrete legacy-format outbound message. -/
def mEx : WSMessage :=
  { mtype := "message", payload := none, chatId := some "c1", userId := none }

/-! ### Small laws about the sending primitives -/

theorem sendRaw_fields (s : SvcState) (i : Nat) (f : WSFrame) :
    (sendRaw s i f).ws = s.ws ∧ (sendRaw s i f).sockets = s.sockets ∧
    (sendRaw s i f).messageQueue = s.messageQueue ∧
    (sendRaw s i f).emitted = s.emitted ∧
    (sendRaw s i f).isServerReady = s.isServerReady ∧
    (sendRaw s i f).currentChatId = s.currentChatId ∧
    (sendRaw s i f).reconnectAttempts = s.reconnectAttempts ∧
    (sendRaw s i f).timers = s.timers ∧
    (sendRaw s i f).pendingClose = s.pendingClose := by
  unfold sendRaw
  split <;> simp

theorem sendCurrent_fields (s : SvcState) (f : WSFrame) :
    (sendCurrent s f).ws = s.ws ∧ (sendCurrent s f).sockets = s.sockets ∧
    (sendCurrent s f).messageQueue = s.messageQueue ∧
    (sendCurrent s f).emitted = s.emitted ∧
    (sendCurrent s f).isServerReady = s.isServerReady ∧
    (sendCurrent s f).currentChatId = s.currentChatId ∧
    (sendCurrent s f).reconnectAttempts = s.reconnectAttempts ∧
    (sendCurrent s f).timers = s.timers ∧
    (sendCurrent s f).pendingClose = s.pendingClose := by
  unfold sendCurrent
  cases hws : s.ws with
  | none => simp [hws]
  | some i => simp [hws, sendRaw_fields s i f]

theorem sendCurrent_open (s : SvcState) (f : WSFrame) (i : Nat)
    (hws : s.ws = some i) (hop : sockState s i = .opened) :
    sendCurrent s f = { s with sent := s.sent ++ [(i, f)] } := by
  unfold sendCurrent sendRaw
  simp [hws, hop]

theorem sendCurrent_notOpen (s : SvcState) (f : WSFrame)
    (h : currentOpen s = false) : sendCurrent s f = s := by
  unfold currentOpen at h
  unfold sendCurrent sendRaw
  cases hws : s.ws with
  | none => simp [hws]
  | some i =>
    rw [hws] at h
    simp only [decide_eq_false_iff_not] at h
    simp [hws, h]

theorem currentOpen_of (s : SvcState) (i : Nat)
    (hws : s.ws = some i) (hop : sockState s i = .opened) :
    currentOpen s = true := by
  unfold currentOpen
  rw [hws]
  simp [hop]

/-! ### Flushing laws -/

theorem foldlSend_open (q : List WSMessage) (s : SvcState) (i : Nat)
    (hws : s.ws = some i) (hop : sockState s i = .opened) :
    q.foldl (fun acc m => sendCurrent acc (.legacy m)) s
      = { s with sent := s.sent ++ q.map fun m => (i, WSFrame.legacy m) } := by
  induction q generalizing s with
  | nil => simp
  | cons m rest ih =>
    rw [List.foldl_cons, sendCurrent_open s (.legacy m) i hws hop,
        ih { s with sent := s.sent ++ [(i, WSFrame.legacy m)] } hws
          (by simpa [sockState] using hop)]
    simp

theorem foldlSend_notOpen (q : List WSMessage) (s : SvcState)
    (h : currentOpen s = false) :
    q.foldl (fun acc m => sendCurrent acc (.legacy m)) s = s := by
  induction q with
  | nil => rfl
  | cons m rest ih => rw [List.foldl_cons, sendCurrent_notOpen s _ h, ih]

theorem flush_open (s : SvcState) (i : Nat)
    (hws : s.ws = some i) (hop : sockState s i = .opened) :
    flushMessageQueue s
      = { s with messageQueue := []
                 sent := s.sent ++ s.messageQueue.map fun m => (i, WSFrame.legacy m) } := by
  unfold flushMessageQueue
  split
  · rename_i hq
    rw [List.isEmpty_iff] at hq
    ext1 <;> simp [hq]
  · rw [foldlSend_open _ _ _ hws hop]

theorem flush_notOpen (s : SvcState) (h : currentOpen s = false) :
    flushMessageQueue s = { s with messageQueue := [] } := by
  unfold flushMessageQueue
  split
  · rename_i hq
    rw [List.isEmpty_iff] at hq
    ext1 <;> simp [hq]
  · rw [foldlSend_notOpen _ _ h]

/-- C10: flushMessageQueue always leaves the pending queue empty; when the
socket is not open at flush time, every queued item is discarded (nothing
is transmitted and nothing is retained for a later flush). -/
theorem c10_flush_always_empties (s : SvcState) :
    (flushMessageQueue s).messageQueue = [] ∧
    (currentOpen s = false → flushMessageQueue s = { s with messageQueue := [] }) := by
  constructor
  · unfold flushMessageQueue
    split
    · rename_i hq
      rwa [List.isEmpty_iff] at hq
    · rfl
  · exact flush_notOpen s

/-- Witness for C10 at a concrete state: a fresh service whose queue holds
one message and whose socket is absent; the flush empties the queue and
sends nothing. -/
theorem c10_flush_always_empties_witness :
    (flushMessageQueue { exInit with messageQueue := [mEx] }).messageQueue = [] ∧
    flushMessageQueue { exInit with messageQueue := [mEx] }
      = { { exInit with messageQueue := [mEx] } with messageQueue := [] } :=
  ⟨(c10_flush_always_empties _).1, (c10_flush_always_empties _).2 (by decide)⟩

/-- C9: with no auth token supplied, connect() is a complete no-op — no
socket is created, the connecting flag stays down, no timer is scheduled,
the entire state is unchanged. -/
theorem c9_connect_without_token (s : SvcState) (h : s.token = none) :
    step s .callConnect = s := by
  show connect s = s
  unfold connect
  split
  · rfl
  · simp [h]

/-- Witness for C9: a freshly initialized service without a token. -/
theorem c9_connect_without_token_witness :
    step (initState none true) .callConnect = initState none true :=
  c9_connect_without_token _ rfl

/-! ### C5: WebSocket URL derivation -/

/-- C5 counterexample: for the https base URL https://api.example.com the
code produces ws://api.example.com/ws/chat, not the wss:// endpoint the
claim requires — the regex replaces both http:// and https:// with ws://. -/
theorem c5_counterexample :
    wsUrl "https://api.example.com" = "ws://api.example.com/ws/chat" ∧
    wsUrl "https://api.example.com" ≠ "wss://api.example.com/ws/chat" := by
  constructor
  · rfl
  · decide

/-- C5 amended: the endpoint is derived by replacing a leading http:// or
https:// with ws:// (never wss://) and appending /ws/chat. -/
theorem c5_amended (rest : String) :
    wsUrl ("http://" ++ rest) = "ws://" ++ rest ++ "/ws/chat" ∧
    wsUrl ("https://" ++ rest) = "ws://" ++ rest ++ "/ws/chat" := by
  constructor <;> rfl

/-! ### C2: outbound queueing -/

/-- C2 counterexample: after connect() and the socket-open event the session
is not yet ready (no welcome received), yet sendMessage transmits the
payload immediately instead of queueing it — the queue stays empty, the
sent log grows (the auth frame moreover was already transmitted before
ready).  A sendSimpleMessage call issued while disconnected is dropped, not
queued. -/
theorem c2_counterexample :
    sOpenEx.isServerReady = false ∧
    sOpenEx.messageQueue = [] ∧
    (step sOpenEx (.callSend mEx)).messageQueue = [] ∧
    (step sOpenEx (.callSend mEx)).sent
      = sOpenEx.sent ++ [(0, WSFrame.legacy mEx)] ∧
    sOpenEx.sent ≠ [] ∧
    (step exInit (.callSendSimple "hi")).messageQueue = [] ∧
    (step exInit (.callSendSimple "hi")).sent = [] := by
  refine ⟨rfl, rfl, rfl, by decide, by decide, rfl, rfl⟩

/-- C2 amended: sendMessage queues exactly when the socket is not open —
when the socket is open it transmits at once even though no welcome was
received; sendSimpleMessage never queues: it is a silent no-op unless the
server is ready and the socket open, in which case it transmits
immediately. -/
theorem c2_amended (s : SvcState) (m : WSMessage) (msg : String) (i : Nat) :
    (currentOpen s = false →
      sendMessage s m = { s with messageQueue := s.messageQueue ++ [m] }) ∧
    (s.ws = some i → sockState s i = .opened →
      sendMessage s m = { s with sent := s.sent ++ [(i, .legacy m)] }) ∧
    (s.isServerReady = false → sendSimpleMessage s msg = s) ∧
    (s.isServerReady = true → s.ws = some i → sockState s i = .opened →
      sendSimpleMessage s msg
        = { s with sent := s.sent ++ [(i, .simple msg (s.currentChatId.getD "default"))] }) ∧
    (s.isServerReady = true → currentOpen s = false → sendSimpleMessage s msg = s) := by
  refine ⟨fun h => ?_, fun hws hop => ?_, fun h => ?_, fun hr hws hop => ?_,
          fun hr h => ?_⟩
  · unfold sendMessage
    rw [h]
    rfl
  · unfold sendMessage
    rw [currentOpen_of s i hws hop]
    simpa using sendCurrent_open s (.legacy m) i hws hop
  · unfold sendSimpleMessage
    rw [h]
    rfl
  · have h1 : sendSimpleMessage s msg
        = sendCurrent s (.simple msg (s.currentChatId.getD "default")) := by
      unfold sendSimpleMessage
      rw [hr, currentOpen_of s i hws hop]
      simp
    rw [h1, sendCurrent_open s _ i hws hop]
  · unfold sendSimpleMessage
    rw [hr, h]
    rfl

/-- Witness for C2 amended: the closed-socket queueing case, the
open-but-not-ready immediate-transmit case and the not-ready silent-drop
case, each at a concrete state. -/
theorem c2_amended_witness :
    sendMessage exInit mEx = { exInit with messageQueue := exInit.messageQueue ++ [mEx] } ∧
    sendMessage sOpenEx mEx = { sOpenEx with sent := sOpenEx.sent ++ [(0, .legacy mEx)] } ∧
    sendSimpleMessage sOpenEx "hi" = sOpenEx :=
  ⟨(c2_amended exInit mEx "hi" 0).1 (by decide),
   (c2_amended sOpenEx mEx "hi" 0).2.1 (by decide) (by decide),
   (c2_amended sOpenEx mEx "hi" 0).2.2.1 (by decide)⟩

/-! ### C3: single-open-socket invariant -/

/-- The interleaving refuting the at-most-one-open-socket invariant: socket
0 errors while connecting; a second connect() creates socket 1; the stale
abnormal close event of socket 0 is then delivered, clearing the connecting
flag; a third connect() therefore passes the guard and creates socket 2
while socket 1 is still connecting; both handshakes then complete. -/
def c3trace : List Step :=
  [.callConnect, .evError 0, .callConnect, .evClose 0 1006, .callConnect,
   .evOpen 1, .evOpen 2]

/-- C3 counterexample: after the trace above two sockets are open at the
same time — the replaced socket 1 was never closed and still completed its
handshake alongside socket 2. -/
theorem c3_counterexample :
    (run exInit c3trace).sockets = [.closed, .opened, .opened] ∧
    ((run exInit c3trace).sockets.filter fun rs => decide (rs = .opened)).length = 2 := by
  exact ⟨rfl, rfl⟩

/-- C3 amended: calling connect() while the manager is already connecting or
while its current socket is open is a complete no-op (no second socket, no
frame, no state change); but at most one OPEN socket at all times does not
hold, because a connect() call is also accepted while the current socket is
still connecting, provided a stale close event has cleared the connecting
flag — the replaced connecting socket can still open. -/
theorem c3_amended (s : SvcState)
    (h : s.isConnecting = true ∨ currentOpen s = true) :
    step s .callConnect = s := by
  show connect s = s
  unfold connect
  have hc : (s.isConnecting || currentOpen s) = true := by
    rcases h with h | h <;> simp [h]
  rw [if_pos hc]

/-- Witness for C3 amended: connect() right after a first connect() (still
connecting) and right after the socket opened. -/
theorem c3_amended_witness :
    step (run exInit [Step.callConnect]) .callConnect = run exInit [Step.callConnect] ∧
    step sOpenEx .callConnect = sOpenEx :=
  ⟨c3_amended _ (Or.inl (by decide)), c3_amended _ (Or.inr (by decide))⟩

/-! ### C1 and C7: welcome handling and queue flushing -/

/-- A pattern that occurs in a string forces the string to be non-empty,
provided the pattern itself is non-empty. -/
theorem strIncludes_src_nonempty (t p : String) (h : strIncludes t p = true)
    (hp : p.isEmpty = false) : t.isEmpty = false := by
  cases hti : t.isEmpty
  · rfl
  · exfalso
    have ht2 : t = "" := (String.isEmpty_iff t).mp hti
    subst ht2
    unfold strIncludes at h
    rw [show ("" : String).data = [] from rfl] at h
    simp only [strIncludesAux] at h
    have hpe : p = "" := String.ext (List.isEmpty_iff.mp h)
    rw [hpe, show ("" : String).isEmpty = true from rfl] at hp
    exact Bool.noConfusion hp

/-- A first reply element containing one of the three readiness markers is
classified as a welcome message. -/
theorem isWelcome_of_marker (d : Inbound)
    (h : strIncludes (messageText d) "connected" = true ∨
         strIncludes (messageText d) "welcome" = true ∨
         strIncludes (messageText d) "ready" = true) :
    isWelcome d = true := by
  unfold isWelcome
  have hne : (messageText d).isEmpty = false := by
    rcases h with h | h | h <;> exact strIncludes_src_nonempty _ _ h (by decide)
  rcases h with h | h | h <;> simp [hne, h]

/-- The full effect of a welcome payload delivered on the open current
socket: server-ready set, current chat id overridden by a truthy payload
chat id, connected emitted, and the pending queue flushed in order onto the
current socket. -/
theorem onMessage_welcome (s : SvcState) (d : Inbound) (nowMs nowIso : String)
    (i : Nat) (hws : s.ws = some i) (hop : sockState s i = .opened)
    (hwel : isWelcome d = true) :
    onMessageData s d nowMs nowIso
      = { s with isServerReady := true
                 currentChatId :=
                   if truthyOpt d.chatId then d.chatId else s.currentChatId
                 emitted := s.emitted ++ ["connected"]
                 messageQueue := []
                 sent := s.sent ++ s.messageQueue.map fun m => (i, WSFrame.legacy m) } := by
  unfold onMessageData
  rw [if_pos hwel]
  dsimp only
  split
  · rename_i h
    rw [flush_open
          (emit { s with isServerReady := true, currentChatId := d.chatId } "connected")
          i hws hop]
    ext1 <;> simp [emit, h]
  · rename_i h
    rw [flush_open (emit { s with isServerReady := true } "connected") i hws hop]
    ext1 <;> simp [emit, h]

/-- Delivering a message on an open socket runs the onmessage body. -/
theorem step_evMessage_open (s : SvcState) (i : Nat) (d : Inbound)
    (nowMs nowIso : String) (hop : sockState s i = .opened) :
    step s (.evMessage i d nowMs nowIso) = onMessageData s d nowMs nowIso := by
  unfold step
  dsimp only
  rw [if_pos hop]

/-- A concrete welcome payload: the scenario payload from the claim. -/
def dWelcome : Inbound :=
  { reply := some ["Connected to chat"], errorFlag := false,
    chatId := some "c1", mtype := "", payload := none }

/-- C1: a payload whose first reply element contains a readiness marker
(connected / welcome / ready), delivered while the current socket is open,
makes the session ready, overrides currentChatId with the payload's chatId
when a (truthy, per JS semantics) one is present, emits connected and
flushes the pending queue; in particular the payload
reply=[Connected to chat], chatId=c1 makes the session ready with
currentChatId c1. -/
theorem c1_welcome_transition (s : SvcState) (i : Nat) (d : Inbound)
    (nowMs nowIso : String)
    (hws : s.ws = some i) (hop : sockState s i = .opened)
    (hmark : strIncludes (messageText d) "connected" = true ∨
             strIncludes (messageText d) "welcome" = true ∨
             strIncludes (messageText d) "ready" = true) :
    ((step s (.evMessage i d nowMs nowIso)).isServerReady = true ∧
     (∀ c, d.chatId = some c → c.isEmpty = false →
        (step s (.evMessage i d nowMs nowIso)).currentChatId = some c) ∧
     (step s (.evMessage i d nowMs nowIso)).emitted = s.emitted ++ ["connected"] ∧
     (step s (.evMessage i d nowMs nowIso)).messageQueue = [] ∧
     (step s (.evMessage i d nowMs nowIso)).sent
        = s.sent ++ s.messageQueue.map fun m => (i, WSFrame.legacy m)) ∧
    (step sOpenEx (.evMessage 0 dWelcome "1" "t")).isServerReady = true ∧
    (step sOpenEx (.evMessage 0 dWelcome "1" "t")).currentChatId = some "c1" := by
  rw [step_evMessage_open s i d nowMs nowIso hop,
      onMessage_welcome s d nowMs nowIso i hws hop (isWelcome_of_marker d hmark)]
  refine ⟨⟨rfl, ?_, rfl, rfl, rfl⟩, rfl, rfl⟩
  intro c hc hcne
  simp [hc, truthyOpt, hcne]

/-- Witness for C1 at a concrete state: socket 0 open, one queued message,
welcome with marker "welcome" and chatId c1. -/
theorem c1_welcome_transition_witness :
    ((step { sOpenEx with messageQueue := [mEx] }
        (.evMessage 0 { reply := some ["welcome"], errorFlag := false,
                        chatId := some "c1", mtype := "", payload := none } "1" "t")).isServerReady
        = true ∧
     (step { sOpenEx with messageQueue := [mEx] }
        (.evMessage 0 { reply := some ["welcome"], errorFlag := false,
                        chatId := some "c1", mtype := "", payload := none } "1" "t")).currentChatId
        = some "c1") ∧
    (step { sOpenEx with messageQueue := [mEx] }
        (.evMessage 0 { reply := some ["welcome"], errorFlag := false,
                        chatId := some "c1", mtype := "", payload := none } "1" "t")).sent
      = sOpenEx.sent ++ [(0, WSFrame.legacy mEx)] := by
  have h := c1_welcome_transition { sOpenEx with messageQueue := [mEx] } 0
    { reply := some ["welcome"], errorFlag := false, chatId := some "c1",
      mtype := "", payload := none } "1" "t" (by decide) (by decide)
    (Or.inr (Or.inl (by decide)))
  exact ⟨⟨h.1.1, h.1.2.1 "c1" rfl (by decide)⟩, h.1.2.2.2.2⟩

/-- C7: when a welcome payload arrives on the open current socket while the
pending queue is non-empty, the queued items are transmitted in exactly
their enqueue order (the sent log is extended by the queue's image, in
order, each occurrence once) and the queue is emptied. -/
theorem c7_flush_fifo (s : SvcState) (i : Nat) (d : Inbound)
    (nowMs nowIso : String)
    (hws : s.ws = some i) (hop : sockState s i = .opened)
    (hwel : isWelcome d = true) (_hq : s.messageQueue ≠ []) :
    (step s (.evMessage i d nowMs nowIso)).messageQueue = [] ∧
    (step s (.evMessage i d nowMs nowIso)).sent
      = s.sent ++ s.messageQueue.map fun m => (i, WSFrame.legacy m) := by
  rw [step_evMessage_open s i d nowMs nowIso hop,
      onMessage_welcome s d nowMs nowIso i hws hop hwel]
  exact ⟨rfl, rfl⟩

/-- Witness for C7: two queued messages flushed in order by a concrete
welcome. -/
theorem c7_flush_fifo_witness :
    (step { sOpenEx with messageQueue := [mEx, { mEx with mtype := "typing" }] }
        (.evMessage 0 dWelcome "1" "t")).messageQueue = [] ∧
    (step { sOpenEx with messageQueue := [mEx, { mEx with mtype := "typing" }] }
        (.evMessage 0 dWelcome "1" "t")).sent
      = sOpenEx.sent ++ [(0, WSFrame.legacy mEx),
                         (0, WSFrame.legacy { mEx with mtype := "typing" })] := by
  have h := c7_flush_fifo
    { sOpenEx with messageQueue := [mEx, { mEx with mtype := "typing" }] } 0
    dWelcome "1" "t" (by decide) (by decide) (by decide) (by decide)
  exact ⟨h.1, h.2⟩

/-! ### C6: reconnection counter and backoff -/

/-- The trace refuting "the counter resets to zero on reaching ready": the
stale abnormal close event of the failed socket 0 is delivered after socket
1 already opened (which zeroed the counter) but before the welcome message
arrives, so scheduleReconnect raises the counter to 1 and the session then
reaches ready with a non-zero counter — the welcome handler itself never
touches the counter. -/
def c6pre : SvcState :=
  run exInit [.callConnect, .evError 0, .callConnect, .evOpen 1, .evClose 0 1006]

/-- The welcome payload used in the C6 counterexample. -/
def dWelcome2 : Inbound :=
  { reply := some ["welcome"], errorFlag := false, chatId := none,
    mtype := "", payload := none }

/-- C6 counterexample: the session transitions to ready (server-ready flag
goes from false to true) while the reconnect-attempt counter is 1, not 0. -/
theorem c6_counterexample :
    c6pre.isServerReady = false ∧
    c6pre.reconnectAttempts = 1 ∧
    (step c6pre (.evMessage 1 dWelcome2 "2" "t2")).isServerReady = true ∧
    (step c6pre (.evMessage 1 dWelcome2 "2" "t2")).reconnectAttempts = 1 :=
  ⟨rfl, rfl, rfl, rfl⟩

/-- C6 amended: below the cap each scheduleReconnect strictly increments the
counter and arms a timer whose delay is the base delay doubled once per
prior attempt; at the cap (5) it only emits max_reconnect_attempts_reached
and schedules nothing, so the counter never exceeds 5; the counter is reset
to zero by explicit disconnect() and when a socket connection opens (the
step that precedes ready) — not by the welcome message itself. -/
theorem c6_amended (s : SvcState) (i : Nat) :
    (s.reconnectAttempts < maxReconnectAttempts →
      scheduleReconnect s
        = { s with reconnectAttempts := s.reconnectAttempts + 1
                   emitted := s.emitted ++ ["reconnect_attempt"]
                   timers := s.timers
                     ++ [.reconnect (reconnectDelay * 2 ^ s.reconnectAttempts)] }) ∧
    (s.reconnectAttempts ≥ maxReconnectAttempts →
      scheduleReconnect s
        = { s with emitted := s.emitted ++ ["max_reconnect_attempts_reached"] }) ∧
    (s.reconnectAttempts ≤ maxReconnectAttempts →
      (scheduleReconnect s).reconnectAttempts ≤ maxReconnectAttempts) ∧
    (step s .callDisconnect).reconnectAttempts = 0 ∧
    (sockState s i = .connecting →
      (step s (.evOpen i)).reconnectAttempts = 0) := by
  refine ⟨fun h => ?_, fun h => ?_, fun h => ?_, ?_, fun h => ?_⟩
  · unfold scheduleReconnect
    rw [if_neg (by omega)]
  · unfold scheduleReconnect
    rw [if_pos h]
    rfl
  · by_cases hc : s.reconnectAttempts ≥ maxReconnectAttempts
    · unfold scheduleReconnect
      rw [if_pos hc]
      simpa [emit, maxReconnectAttempts] using h
    · unfold scheduleReconnect
      rw [if_neg hc]
      simp only [maxReconnectAttempts] at hc ⊢
      omega
  · show (disconnect s).reconnectAttempts = 0
    unfold disconnect
    cases hws : s.ws with
    | none => rfl
    | some j =>
      dsimp only
      split <;> rfl
  · show (onOpen s i).reconnectAttempts = 0
    unfold onOpen
    rw [if_pos h]
    dsimp only
    rw [show (removeConnTimeout (setSock s i .opened) i).token = s.token from rfl]
    cases s.token with
    | none => rfl
    | some t => exact (sendCurrent_fields _ _).2.2.2.2.2.2.1

/-- Witness for C6 amended at concrete states: counter 2 increments to 3
with the 4-second delay, counter 5 stops with the max event, disconnect and
socket-open reset to zero. -/
theorem c6_amended_witness :
    scheduleReconnect { exInit with reconnectAttempts := 2 }
      = { { exInit with reconnectAttempts := 2 } with
          reconnectAttempts := 3
          emitted := [] ++ ["reconnect_attempt"]
          timers := [] ++ [.reconnect 4000] } ∧
    scheduleReconnect { exInit with reconnectAttempts := 5 }
      = { { exInit with reconnectAttempts := 5 } with
          emitted := [] ++ ["max_reconnect_attempts_reached"] } ∧
    (step { exInit with reconnectAttempts := 4 } .callDisconnect).reconnectAttempts = 0 ∧
    (step { run exInit [Step.callConnect] with reconnectAttempts := 3 }
        (.evOpen 0)).reconnectAttempts = 0 :=
  ⟨(c6_amended { exInit with reconnectAttempts := 2 } 0).1 (by decide),
   (c6_amended { exInit with reconnectAttempts := 5 } 0).2.1 (by decide),
   (c6_amended { exInit with reconnectAttempts := 4 } 0).2.2.2.1,
   (c6_amended { run exInit [Step.callConnect] with reconnectAttempts := 3 } 0).2.2.2.2
     (by decide)⟩

/-! ### C8: cache-merge idempotence -/

/-- Number of cached messages of a chat. -/
def msgCount (c : ChatCache) (cid : String) : Nat :=
  match c cid with
  | some r => r.messages.length
  | none => 0

/-- After the per-chat updater ran for a message, the resulting record
contains a message with that id. -/
theorem chatUpdater_has_id (nowIso : String) (m : ChatMessage) (o : Option ChatRec) :
    (chatUpdater nowIso m o).messages.any (fun msg => msg.id == m.id) = true := by
  cases o with
  | none => simp [chatUpdater, synthChat, toCacheMsg]
  | some old =>
    simp only [chatUpdater]
    split
    · rename_i hany
      exact hany
    · simp [toCacheMsg]

/-- C8: merging an inbound message is idempotent on the message id — when
the target chat's cached record already holds a message with the same id
the per-chat cache is left completely unchanged, merging the same message
twice equals merging it once, a single merge raises the chat's message
count by at most one, and when no record exists for the chat id a minimal
record is synthesized from the message. -/
theorem c8_merge_idempotent (cc : ChatCache) (cl cl2 : Option (List ChatSummary))
    (m : ChatMessage) (n1 n2 : String) :
    (cc m.chatId = none →
      (handleIncomingMessage n1 cc cl m).1 m.chatId = some (synthChat n1 m)) ∧
    (∀ old, cc m.chatId = some old →
      old.messages.any (fun msg => msg.id == m.id) = true →
      (handleIncomingMessage n1 cc cl m).1 = cc) ∧
    ((handleIncomingMessage n2 (handleIncomingMessage n1 cc cl m).1 cl2 m).1
      = (handleIncomingMessage n1 cc cl m).1) ∧
    msgCount (handleIncomingMessage n1 cc cl m).1 m.chatId
      ≤ msgCount cc m.chatId + 1 := by
  refine ⟨fun h => ?_, fun old hold hany => ?_, ?_, ?_⟩
  · simp [handleIncomingMessage, setCache, h, chatUpdater]
  · funext k2
    unfold handleIncomingMessage setCache
    dsimp only
    by_cases hk : k2 = m.chatId
    · subst hk
      rw [if_pos rfl, hold]
      simp only [chatUpdater]
      rw [if_pos hany]
    · rw [if_neg hk]
  · funext k2
    unfold handleIncomingMessage setCache
    dsimp only
    by_cases hk : k2 = m.chatId
    · subst hk
      rw [if_pos rfl, if_pos rfl]
      have hfst : chatUpdater n2 m (some (chatUpdater n1 m (cc m.chatId)))
          = chatUpdater n1 m (cc m.chatId) := by
        generalize hv : chatUpdater n1 m (cc m.chatId) = v
        have hva : v.messages.any (fun msg => msg.id == m.id) = true :=
          hv ▸ chatUpdater_has_id n1 m (cc m.chatId)
        simp only [chatUpdater]
        rw [if_pos hva]
      rw [hfst]
    · rw [if_neg hk, if_neg hk]
  · have hv : (handleIncomingMessage n1 cc cl m).1 m.chatId
        = some (chatUpdater n1 m (cc m.chatId)) := by
      unfold handleIncomingMessage setCache
      dsimp only
      rw [if_pos rfl]
    unfold msgCount
    rw [hv]
    cases hold : cc m.chatId with
    | none => simp [chatUpdater, synthChat]
    | some old =>
      dsimp only
      simp only [chatUpdater]
      split
      · omega
      · simp

/-- Witness for C8 at concrete inputs: an empty cache synthesizes the
minimal record; a cache already holding the message id is unchanged;
merging twice equals merging once; the count grows by at most one. -/
theorem c8_merge_idempotent_witness :
    ((handleIncomingMessage "t0" (fun _ => none) none
        { id := "m1", chatId := "c1", content := "hello",
          sender := { id := "u", name := "U", email := "u@x" },
          timestamp := "t1", type := .assistant }).1 "c1"
      = some (synthChat "t0"
          { id := "m1", chatId := "c1", content := "hello",
            sender := { id := "u", name := "U", email := "u@x" },
            timestamp := "t1", type := .assistant })) ∧
    ((handleIncomingMessage "t9"
        ((handleIncomingMessage "t0" (fun _ => none) none
          { id := "m1", chatId := "c1", content := "hello",
            sender := { id := "u", name := "U", email := "u@x" },
            timestamp := "t1", type := .assistant }).1) none
        { id := "m1", chatId := "c1", content := "hello",
          sender := { id := "u", name := "U", email := "u@x" },
          timestamp := "t1", type := .assistant }).1
      = (handleIncomingMessage "t0" (fun _ => none) none
          { id := "m1", chatId := "c1", content := "hello",
            sender := { id := "u", name := "U", email := "u@x" },
            timestamp := "t1", type := .assistant }).1) ∧
    msgCount (handleIncomingMessage "t0" (fun _ => none) none
        { id := "m1", chatId := "c1", content := "hello",
          sender := { id := "u", name := "U", email := "u@x" },
          timestamp := "t1", type := .assistant }).1 "c1"
      ≤ msgCount (fun _ => none) "c1" + 1 := by
  have h := c8_merge_idempotent (fun _ => none) none none
    { id := "m1", chatId := "c1", content := "hello",
      sender := { id := "u", name := "U", email := "u@x" },
      timestamp := "t1", type := .assistant } "t0" "t9"
  exact ⟨h.1 rfl, h.2.2.1, h.2.2.2⟩

/-! ### C4: permanence of disconnect -/

/-- A first attempt fails abnormally (error then abnormal close), which
schedules a reconnection timer; the user then calls disconnect().  The
source never stores or clears the setTimeout handle, so the timer is still
pending after the disconnect. -/
def c4pre : SvcState :=
  run exInit [.callConnect, .evError 0, .evClose 0 1006, .callDisconnect]

/-- C4 counterexample: after an explicit disconnect() the pending reconnect
timer still fires, finds this.ws null, and calls connect() — a brand-new
socket is created automatically, with no new explicit connect() call. -/
theorem c4_counterexample :
    c4pre.ws = none ∧
    c4pre.reconnectAttempts = 0 ∧
    c4pre.timers = [WSTimer.reconnect 1000] ∧
    c4pre.sockets.length = 1 ∧
    (step c4pre (.fireTimer 0)).sockets.length = 2 ∧
    (step c4pre (.fireTimer 0)).isConnecting = true ∧
    (step c4pre (.fireTimer 0)).ws = some 1 :=
  ⟨rfl, rfl, rfl, rfl, rfl, rfl, rfl⟩

/-- Steps that are not an explicit (or network-triggered) connection
request: everything except connect(), joinChat() and the window online
event. -/
def isAutoStep : Step → Bool
  | .callConnect => false
  | .callJoinChat _ => false
  | .evOnline => false
  | _ => true

/-- A quiescent service: no pending timer, every undelivered close event is
a normal closure, and every socket ever created is closing or closed. -/
def Quiescent (s : SvcState) : Prop :=
  s.timers = [] ∧ (∀ p ∈ s.pendingClose, p.2 = 1000) ∧
  (∀ rs ∈ s.sockets, rs = ReadyState.closing ∨ rs = ReadyState.closed)

theorem quiescentSock (s : SvcState) (h : Quiescent s) (i : Nat) :
    sockState s i = .closing ∨ sockState s i = .closed := by
  unfold sockState
  cases hg : s.sockets[i]? with
  | none => exact Or.inr rfl
  | some rs =>
    have hm : rs ∈ s.sockets := List.mem_iff_getElem?.mpr ⟨i, hg⟩
    simpa using h.2.2 rs hm

theorem quiescentNotOpen (s : SvcState) (h : Quiescent s) :
    currentOpen s = false := by
  unfold currentOpen
  cases hws : s.ws with
  | none => rfl
  | some i => rcases quiescentSock s h i with h2 | h2 <;> simp [h2]

theorem sockState_eq_getElem (s : SvcState) (i : Nat) (h : i < s.sockets.length) :
    sockState s i = s.sockets[i] := by
  unfold sockState
  rw [List.getElem?_eq_getElem h]
  rfl

theorem disconnect_attempts (s : SvcState) :
    (disconnect s).reconnectAttempts = 0 := by
  unfold disconnect
  cases s.ws with
  | none => rfl
  | some i =>
    dsimp only
    split <;> rfl

/-- disconnect() establishes quiescence, provided no timer is pending, all
undelivered closes are normal and every non-current socket is already dead:
the current socket (in any state) is closed with code 1000. -/
theorem disconnectQuiescent (s : SvcState)
    (hT : s.timers = []) (hP : ∀ p ∈ s.pendingClose, p.2 = 1000)
    (hO : ∀ j, s.ws ≠ some j → sockState s j = .closing ∨ sockState s j = .closed) :
    Quiescent (disconnect s) ∧ (disconnect s).sockets.length = s.sockets.length := by
  unfold disconnect
  cases hws : s.ws with
  | none =>
    refine ⟨⟨hT, hP, ?_⟩, rfl⟩
    intro rs hm
    obtain ⟨n, hn, he⟩ := List.mem_iff_getElem.mp hm
    have h2 := hO n (by rw [hws]; intro hcon; exact Option.noConfusion hcon)
    rw [sockState_eq_getElem s n hn, he] at h2
    exact h2
  | some i =>
    dsimp only
    split
    · refine ⟨⟨hT, ?_, ?_⟩, by simp⟩
      · intro p hp
        rcases List.mem_append.mp hp with hp2 | hp2
        · exact hP p hp2
        · rw [List.mem_singleton.mp hp2]
      · intro rs hm
        obtain ⟨n, hn, he⟩ := List.mem_iff_getElem.mp hm
        rw [List.getElem_set] at he
        by_cases hni : i = n
        · rw [if_pos hni] at he
          exact Or.inl he.symm
        · rw [if_neg hni] at he
          have h2 := hO n (by rw [hws]; intro hcon; exact hni (Option.some.inj hcon))
          rw [sockState_eq_getElem s n (by simpa using hn), he] at h2
          exact h2
    · rename_i hcond
      refine ⟨⟨hT, hP, ?_⟩, rfl⟩
      intro rs hm
      obtain ⟨n, hn, he⟩ := List.mem_iff_getElem.mp hm
      by_cases hni : i = n
      · subst hni
        rw [← sockState_eq_getElem s i hn] at he
        cases hval : sockState s i with
        | connecting => exact absurd (Or.inl hval) hcond
        | opened => exact absurd (Or.inr hval) hcond
        | closing => rw [hval] at he; exact Or.inl he.symm
        | closed => rw [hval] at he; exact Or.inr he.symm
      · have h2 := hO n (by rw [hws]; intro hcon; exact hni (Option.some.inj hcon))
        rw [sockState_eq_getElem s n hn, he] at h2
        exact h2

/-- Every non-connect step preserves quiescence and creates no socket. -/
theorem stepQuiescent (s : SvcState) (l : Step) (h : Quiescent s)
    (hl : isAutoStep l = true) :
    Quiescent (step s l) ∧ (step s l).sockets.length = s.sockets.length := by
  obtain ⟨hT, hP, hS⟩ := h
  cases l with
  | callConnect => simp [isAutoStep] at hl
  | callJoinChat c => simp [isAutoStep] at hl
  | evOnline => simp [isAutoStep] at hl
  | callDisconnect =>
    show Quiescent (disconnect s) ∧ (disconnect s).sockets.length = s.sockets.length
    exact disconnectQuiescent s hT hP fun j _ => quiescentSock s ⟨hT, hP, hS⟩ j
  | callLeaveChat =>
    show Quiescent (leaveChat s) ∧ (leaveChat s).sockets.length = s.sockets.length
    unfold leaveChat
    cases s.currentChatId <;> exact ⟨⟨hT, hP, hS⟩, rfl⟩
  | callSendSimple msg =>
    show Quiescent (sendSimpleMessage s msg)
      ∧ (sendSimpleMessage s msg).sockets.length = s.sockets.length
    unfold sendSimpleMessage
    rw [quiescentNotOpen s ⟨hT, hP, hS⟩]
    split
    · exact ⟨⟨hT, hP, hS⟩, rfl⟩
    · rw [if_neg (by simp)]
      exact ⟨⟨hT, hP, hS⟩, rfl⟩
  | callSend m =>
    show Quiescent (sendMessage s m)
      ∧ (sendMessage s m).sockets.length = s.sockets.length
    unfold sendMessage
    rw [quiescentNotOpen s ⟨hT, hP, hS⟩, if_neg (by simp)]
    exact ⟨⟨hT, hP, hS⟩, rfl⟩
  | callSendTyping c b =>
    show Quiescent (sendTyping s c b)
      ∧ (sendTyping s c b).sockets.length = s.sockets.length
    unfold sendTyping sendMessage
    rw [quiescentNotOpen s ⟨hT, hP, hS⟩, if_neg (by simp)]
    exact ⟨⟨hT, hP, hS⟩, rfl⟩
  | evOpen i =>
    show Quiescent (onOpen s i) ∧ (onOpen s i).sockets.length = s.sockets.length
    unfold onOpen
    split
    · rename_i hcond
      rcases quiescentSock s ⟨hT, hP, hS⟩ i with h2 | h2 <;> rw [h2] at hcond <;>
        exact ReadyState.noConfusion hcond
    · exact ⟨⟨hT, hP, hS⟩, rfl⟩
  | evError i =>
    show Quiescent (onError s i) ∧ (onError s i).sockets.length = s.sockets.length
    unfold onError
    split
    · rename_i hcond
      rcases quiescentSock s ⟨hT, hP, hS⟩ i with h2 | h2 <;>
        rcases hcond with hc | hc <;> rw [h2] at hc <;>
          exact ReadyState.noConfusion hc
    · exact ⟨⟨hT, hP, hS⟩, rfl⟩
  | evClose i code =>
    show Quiescent (onClose s i code)
      ∧ (onClose s i code).sockets.length = s.sockets.length
    unfold onClose
    split
    · rename_i hmem
      have hcode : code = 1000 := hP (i, code) hmem
      dsimp only
      rw [if_neg (by simp [hcode])]
      refine ⟨⟨hT, ?_, ?_⟩, by simp [setSock, emit]⟩
      · intro p hp
        exact hP p (List.mem_of_mem_erase hp)
      · intro rs hm
        rcases List.mem_or_eq_of_mem_set hm with hm2 | hm2
        · exact hS rs hm2
        · exact Or.inr hm2
    · exact ⟨⟨hT, hP, hS⟩, rfl⟩
  | evMessage i d nowMs nowIso =>
    show Quiescent (if sockState s i = .opened then onMessageData s d nowMs nowIso else s)
      ∧ (if sockState s i = .opened then onMessageData s d nowMs nowIso else s).sockets.length
          = s.sockets.length
    split
    · rename_i hcond
      rcases quiescentSock s ⟨hT, hP, hS⟩ i with h2 | h2 <;> rw [h2] at hcond <;>
        exact ReadyState.noConfusion hcond
    · exact ⟨⟨hT, hP, hS⟩, rfl⟩
  | fireTimer k =>
    show Quiescent (fireTimer s k) ∧ (fireTimer s k).sockets.length = s.sockets.length
    unfold fireTimer
    rw [hT]
    simp only [List.getElem?_nil]
    exact ⟨⟨hT, hP, hS⟩, trivial⟩
  | evOffline =>
    exact ⟨⟨hT, hP, hS⟩, rfl⟩

/-- Runs of non-connect steps preserve quiescence and the socket count. -/
theorem runQuiescent (s : SvcState) (tr : List Step) (h : Quiescent s)
    (htr : tr.all isAutoStep = true) :
    Quiescent (run s tr) ∧ (run s tr).sockets.length = s.sockets.length := by
  induction tr generalizing s with
  | nil => exact ⟨h, rfl⟩
  | cons l rest ih =>
    simp only [List.all_cons, Bool.and_eq_true] at htr
    have h1 := stepQuiescent s l h htr.1
    have h2 := ih (step s l) h1.1 htr.2
    refine ⟨h2.1, ?_⟩
    rw [show run s (l :: rest) = run (step s l) rest from rfl, h2.2, h1.2]

/-- C4 amended: disconnect() zeroes the attempt counter, closes the current
socket with the normal-closure code (1000) and is safe in every state; from
a state with no pending timer, no undelivered abnormal-close event and no
other live socket, no step other than an explicit connect()/joinChat() (or
a network online event) ever creates a socket afterwards — permanence.  It
is NOT unconditional: a reconnect timer scheduled before the disconnect is
never cancelled and fires connect() (the counterexample). -/
theorem c4_amended (s : SvcState) (tr : List Step)
    (hT : s.timers = [])
    (hP : ∀ p ∈ s.pendingClose, p.2 = 1000)
    (hO : ∀ j, s.ws ≠ some j →
      sockState s j = .closing ∨ sockState s j = .closed)
    (htr : tr.all isAutoStep = true) :
    (step s .callDisconnect).reconnectAttempts = 0 ∧
    (step s .callDisconnect).ws = none ∧
    Quiescent (step s .callDisconnect) ∧
    (run (step s .callDisconnect) tr).sockets.length = s.sockets.length ∧
    (run (step s .callDisconnect) tr).timers = [] := by
  have hd := disconnectQuiescent s hT hP hO
  have hr := runQuiescent (disconnect s) tr hd.1 htr
  refine ⟨disconnect_attempts s, ?_, hd.1, ?_, hr.1.1⟩
  · show (disconnect s).ws = none
    unfold disconnect
    cases s.ws with
    | none => rfl
    | some i =>
      dsimp only
      split <;> rfl
  · show (run (disconnect s) tr).sockets.length = s.sockets.length
    rw [hr.2, hd.2]

/-- Witness for C4 amended: disconnect from the open session, then deliver
the normal close of the disconnected socket and attempt a send — no new
socket appears and no timer is ever armed. -/
theorem c4_amended_witness :
    (step sOpenEx .callDisconnect).reconnectAttempts = 0 ∧
    (step sOpenEx .callDisconnect).ws = none ∧
    Quiescent (step sOpenEx .callDisconnect) ∧
    (run (step sOpenEx .callDisconnect)
        [.evClose 0 1000, .callSend mEx]).sockets.length = 1 ∧
    (run (step sOpenEx .callDisconnect)
        [.evClose 0 1000, .callSend mEx]).timers = [] := by
  have ho : ∀ j, sOpenEx.ws ≠ some j →
      sockState sOpenEx j = .closing ∨ sockState sOpenEx j = .closed := by
    intro j hj
    right
    have hj0 : j ≠ 0 := by
      intro he
      exact hj (by rw [he]; rfl)
    unfold sockState
    rw [show sOpenEx.sockets = [ReadyState.opened] from rfl,
        List.getElem?_eq_none (by simp; omega)]
    rfl
  exact c4_amended sOpenEx [.evClose 0 1000, .callSend mEx]
    (by decide) (by decide) ho (by decide)

end WS
